import Mathlib

/-!
Verification of the annual-alignment and normalization pipeline of the
Annual Performance Analyzer (`src/pages/2_Annual_Performance.py`).

The embedding models the core data semantics: a daily close-price series
(missing closes are `none`, pandas `NaN`), partitioning by calendar year,
the `>5`-point inclusion filter, first-valid baseline selection,
forward-fill followed by backward-fill, percent normalization, the
synthetic year-2000 calendar axis, the summary table, the hover-label
construction and the length-mismatch guard of the chart builder.
Close prices are rationals; the HTML string formatting of hover labels
(a presentation-only step) is abstracted to the data each label shows.
-/

/-- A calendar date, as the triple pandas exposes on a `Timestamp`
(`d.year`, `d.month`, `d.day`). No validity constraint is imposed; all
dates fed to the pipeline come from the data source's index. -/
structure Date where
  year : Nat
  month : Nat
  day : Nat
deriving DecidableEq

/-- Strict chronological order on dates: lexicographic on
(year, month, day). -/
def Date.lt (a b : Date) : Prop :=
  a.year < b.year ∨
    (a.year = b.year ∧
      (a.month < b.month ∨ (a.month = b.month ∧ a.day < b.day)))

instance (a b : Date) : Decidable (Date.lt a b) := by
  unfold Date.lt; infer_instance

/-- One row of the fetched frame restricted to the `Close` column:
a date and an optional close (`none` models pandas `NaN`). -/
structure PricePoint where
  date : Date
  close : Option ℚ
deriving DecidableEq

/-- `data[data.index.year == year]["Close"]`: the sub-series of points
whose date falls in the given calendar year, in original order. -/
def yearWindow (data : List PricePoint) (y : Nat) : List PricePoint :=
  data.filter (fun p => p.date.year == y)

/-- `Series.first_valid_index` followed by `.loc`: the first non-missing
value of the series, `none` when every entry is missing. -/
def firstSome (xs : List (Option ℚ)) : Option ℚ :=
  xs.findSome? id

/-- `Series.ffill` with an explicit carry: each missing entry is replaced
by the last preceding known value (`carry`), which is `none` at the start
of the series. -/
def ffillAux (carry : Option ℚ) : List (Option ℚ) → List (Option ℚ)
  | [] => []
  | some v :: rest => some v :: ffillAux (some v) rest
  | none :: rest => carry :: ffillAux carry rest

/-- `Series.ffill`: forward-fill, propagating the last known value into
interior and trailing gaps. Leading gaps stay missing. -/
def ffill (xs : List (Option ℚ)) : List (Option ℚ) :=
  ffillAux none xs

/-- `Series.bfill`: backward-fill, replacing each missing entry by the
next known value after it. Trailing gaps stay missing. -/
def bfill : List (Option ℚ) → List (Option ℚ)
  | [] => []
  | some v :: rest => some v :: bfill rest
  | none :: rest => firstSome rest :: bfill rest

/-- The per-year bundle stored by `process_annual_data`:
`annual_original[year]` (the filled close values), `annual_dates[year]`
(the true dates), and `annual_data[year]` (the normalized series, whose
values are `normalized` and whose index is `syntheticDates`, built by
`pd.Timestamp(2000, d.month, d.day)`). -/
structure AnnualEntry where
  year : Nat
  original : List (Option ℚ)
  dates : List Date
  normalized : List (Option ℚ)
  syntheticDates : List Date
deriving DecidableEq

instance : Inhabited AnnualEntry :=
  ⟨{ year := 0, original := [], dates := [], normalized := [],
     syntheticDates := [] }⟩

/-- The body of the `for year in years` loop of `process_annual_data`:
keep the year only if its window has strictly more than 5 points and a
first valid value exists; then forward-fill, backward-fill, normalize
against the first valid value, and re-index onto year 2000. -/
def processYear (data : List PricePoint) (y : Nat) : Option AnnualEntry :=
  let yd := yearWindow data y
  if 5 < yd.length then
    match firstSome (yd.map PricePoint.close) with
    | some fv =>
        let filled := bfill (ffill (yd.map PricePoint.close))
        some { year := y
               original := filled
               dates := yd.map PricePoint.date
               normalized := filled.map (Option.map (fun v => (v / fv - 1) * 100))
               syntheticDates :=
                 yd.map (fun p => { year := 2000, month := p.date.month, day := p.date.day }) }
    | none => none
  else none

/-- `process_annual_data(data, years)`: `None` when the year list is
empty (the `data is None` guard belongs to the excluded fetch layer),
otherwise the per-year bundles in the caller's year order. Years whose
window fails the `>5`-point test or has no valid value are silently
skipped; the function is total, so no exception can escape it. -/
def process_annual_data (data : List PricePoint) (years : List Nat) :
    Option (List AnnualEntry) :=
  if years.isEmpty then none
  else some (years.filterMap (processYear data))

/-- `year in annual_data` and the subsequent dict lookups: the bundle
stored for a given year, when present. -/
def lookupYear (entries : List AnnualEntry) (y : Nat) : Option AnnualEntry :=
  entries.find? (fun e => e.year == y)

/-- One row of the summary `DataFrame`: the year,
`annual_original[year].iloc[-1]` and `annual_data[year].iloc[-1]`
(the code formats both to two decimals for display; the row keeps the
underlying numbers, and `getLast?` keeps `.iloc[-1]` partiality
observable). -/
structure SummaryRow where
  year : Nat
  yearEndValue : Option (Option ℚ)
  yearEndPerf : Option (Option ℚ)
deriving DecidableEq

/-- The body of the summary loop of `create_summary_table`: a row for a
displayed year present in the results with a non-empty normalized
series. -/
def summaryRow (entries : List AnnualEntry) (y : Nat) : Option SummaryRow :=
  match lookupYear entries y with
  | some e =>
      if e.normalized.isEmpty then none
      else some { year := y
                  yearEndValue := e.original.getLast?
                  yearEndPerf := e.normalized.getLast? }
  | none => none

/-- `create_summary_table`: the rows of the summary loop in display
order; `None` when no year qualifies (`if year_end_perf:` fails). -/
def create_summary_table (entries : List AnnualEntry) (years : List Nat) :
    Option (List SummaryRow) :=
  let rows := years.filterMap (summaryRow entries)
  if rows.isEmpty then none else some rows

/-- The data displayed by one hover label of `create_hover_text`:
the true date (also shown as its weekday name), the filled value and
the normalized percent. -/
structure HoverLabel where
  date : Date
  value : Option ℚ
  perf : Option ℚ
deriving DecidableEq

/-- `create_hover_text`: one label per position of the normalized series
that also has a true date (`if j < len(actual_dates)`), carrying
`actual_dates[j]`, `original_series.iloc[j]` and the percent value. -/
def create_hover_text (actual_dates : List Date)
    (original_series year_series : List (Option ℚ)) : List HoverLabel :=
  (List.range year_series.length).filterMap (fun j =>
    if j < actual_dates.length then
      some { date := actual_dates.getD j { year := 0, month := 0, day := 0 }
             value := original_series.getD j none
             perf := year_series.getD j none }
    else none)

/-- `COLOR_PALETTE`: the ten named colors, cycled by trace index. -/
def COLOR_PALETTE : List String :=
  ["#d62728", "#1f77b4", "#ff7f0e", "#2ca02c", "#9467bd",
   "#8c564b", "#e377c2", "#7f7f7f", "#bcbd22", "#17becf"]

/-- One `go.Scatter` trace: the year (trace name), the synthetic x-axis
dates, the y series (normalized or original values, by display mode),
the guarded hover labels, the customdata triples and the palette index
`i % len(COLOR_PALETTE)`. -/
structure Trace where
  name : Nat
  x : List Date
  y : List (Option ℚ)
  hovertext : Option (List HoverLabel)
  customdata : List (Date × Option ℚ × Option ℚ)
  colorIdx : Nat
deriving DecidableEq

instance : Inhabited Trace :=
  ⟨{ name := 0, x := [], y := [], hovertext := none, customdata := [],
     colorIdx := 0 }⟩

/-- The body of the trace loop of `create_performance_chart` at loop
index `i` and year `y`: skipped when the year is absent; otherwise
`y_data` is chosen by `show_percent`, the hover labels are attached
only when their count equals the length of the plotted x series
(`len(hover_text) == len(dates)`), and customdata is the positional
zip of true dates, original values and normalized values. -/
def traceFor (entries : List AnnualEntry) (show_percent : Bool)
    (i : Nat) (y : Nat) : Option Trace :=
  match lookupYear entries y with
  | some e =>
      let labels := create_hover_text e.dates e.original e.normalized
      some { name := y
             x := e.syntheticDates
             y := if show_percent then e.normalized else e.original
             hovertext :=
               if labels.length = e.syntheticDates.length then some labels
               else none
             customdata :=
               (e.dates.zip (e.original.zip e.normalized)).map
                 (fun t => (t.1, t.2.1, t.2.2))
             colorIdx := i % COLOR_PALETTE.length }
  | none => none

/-- `create_performance_chart`: one trace per displayed year present in
the results, enumerating `years_to_display` so the palette index counts
skipped years too. -/
def create_performance_chart (entries : List AnnualEntry)
    (years_to_display : List Nat) (show_percent : Bool) : List Trace :=
  years_to_display.enum.filterMap (fun iy =>
    traceFor entries show_percent iy.1 iy.2)

/-- `process_and_display_data` after a successful fetch: run the
pipeline; when it produced a non-empty `normalized` dict, build the
chart (with the display-mode flag) and the summary table. -/
def process_and_display_data (data : List PricePoint) (years : List Nat)
    (show_percent : Bool) : Option (List Trace × Option (List SummaryRow)) :=
  match process_annual_data data years with
  | none => none
  | some entries =>
      if entries.isEmpty then none
      else some (create_performance_chart entries years show_percent,
                 create_summary_table entries years)

/-- Everything of a trace except its y series: used to state that the
display-mode flag influences the y series only. -/
def traceShape (t : Trace) :
    Nat × List Date × Option (List HoverLabel) ×
      List (Date × Option ℚ × Option ℚ) × Nat :=
  (t.name, t.x, t.hovertext, t.customdata, t.colorIdx)

section FillLemmas

@[simp] theorem firstSome_nil : firstSome [] = none := rfl

@[simp] theorem firstSome_cons_some (v : ℚ) (rest : List (Option ℚ)) :
    firstSome (some v :: rest) = some v := rfl

@[simp] theorem firstSome_cons_none (rest : List (Option ℚ)) :
    firstSome (none :: rest) = firstSome rest := rfl

@[simp] theorem ffillAux_length (carry : Option ℚ) (xs : List (Option ℚ)) :
    (ffillAux carry xs).length = xs.length := by
  induction xs generalizing carry with
  | nil => rfl
  | cons x rest ih => cases x <;> simp [ffillAux, ih]

@[simp] theorem bfill_length (xs : List (Option ℚ)) :
    (bfill xs).length = xs.length := by
  induction xs with
  | nil => rfl
  | cons x rest ih => cases x <;> simp [bfill, ih]

theorem firstSome_ffillAux_none (xs : List (Option ℚ)) :
    firstSome (ffillAux none xs) = firstSome xs := by
  induction xs with
  | nil => rfl
  | cons x rest ih => cases x <;> simp [ffillAux, ih]

theorem bfill_ffillAux_isSome (xs : List (Option ℚ)) :
    ∀ carry, (firstSome xs).isSome ∨ carry.isSome →
      ∀ o ∈ bfill (ffillAux carry xs), o.isSome = true := by
  induction xs with
  | nil => intro carry _ o ho; simp [ffillAux, bfill] at ho
  | cons x rest ih =>
    intro carry h o ho
    cases x with
    | some v =>
      simp only [ffillAux, bfill, List.mem_cons] at ho
      rcases ho with rfl | ho
      · rfl
      · exact ih (some v) (Or.inr rfl) o ho
    | none =>
      cases carry with
      | some c =>
        simp only [ffillAux, bfill, List.mem_cons] at ho
        rcases ho with rfl | ho
        · rfl
        · exact ih (some c) (Or.inr rfl) o ho
      | none =>
        have hx : (firstSome rest).isSome := by
          rcases h with h | h
          · simpa using h
          · simp at h
        simp only [ffillAux, bfill, List.mem_cons] at ho
        rcases ho with rfl | ho
        · rw [firstSome_ffillAux_none]; exact hx
        · exact ih none (Or.inl hx) o ho

theorem bfill_ffill_head (xs : List (Option ℚ)) (hne : xs ≠ []) :
    (bfill (ffill xs)).head? = some (firstSome xs) := by
  cases xs with
  | nil => exact absurd rfl hne
  | cons x rest =>
    cases x with
    | some v => rfl
    | none => simp [ffill, ffillAux, bfill, firstSome_ffillAux_none]

end FillLemmas

section PipelineLemmas

/-- Elimination form of a successful `processYear`: the `>5` filter
passed, a first valid value exists, and every stored view is the stated
function of the year window. -/
theorem processYear_some (data : List PricePoint) (y : Nat) (e : AnnualEntry)
    (h : processYear data y = some e) :
    ∃ fv, 5 < (yearWindow data y).length ∧
      firstSome ((yearWindow data y).map PricePoint.close) = some fv ∧
      e.year = y ∧
      e.original = bfill (ffill ((yearWindow data y).map PricePoint.close)) ∧
      e.dates = (yearWindow data y).map PricePoint.date ∧
      e.normalized = e.original.map (Option.map (fun v => (v / fv - 1) * 100)) ∧
      e.syntheticDates = (yearWindow data y).map
        (fun p => { year := 2000, month := p.date.month, day := p.date.day }) := by
  simp only [processYear] at h
  split at h
  next h5 =>
    split at h
    next fv hfv =>
      cases h
      exact ⟨fv, h5, hfv, rfl, rfl, rfl, rfl, rfl⟩
    next => cases h
  next => cases h

/-- Introduction form of a successful `processYear`. -/
theorem processYear_intro (data : List PricePoint) (y : Nat) (fv : ℚ)
    (h5 : 5 < (yearWindow data y).length)
    (hfv : firstSome ((yearWindow data y).map PricePoint.close) = some fv) :
    processYear data y = some
      { year := y
        original := bfill (ffill ((yearWindow data y).map PricePoint.close))
        dates := (yearWindow data y).map PricePoint.date
        normalized := (bfill (ffill ((yearWindow data y).map PricePoint.close))).map
          (Option.map (fun v => (v / fv - 1) * 100))
        syntheticDates := (yearWindow data y).map
          (fun p => { year := 2000, month := p.date.month, day := p.date.day }) } := by
  simp only [processYear]
  rw [if_pos h5, hfv]

/-- A successful pipeline run returns exactly the per-year loop results
in caller year order. -/
theorem process_annual_data_some (data : List PricePoint) (years : List Nat)
    (entries : List AnnualEntry)
    (h : process_annual_data data years = some entries) :
    entries = years.filterMap (processYear data) := by
  simp only [process_annual_data] at h
  split at h
  · cases h
  · exact (Option.some.injEq _ _ ▸ h).symm

/-- Elimination form of a successful `summaryRow`. -/
theorem summaryRow_some (entries : List AnnualEntry) (y : Nat) (r : SummaryRow)
    (h : summaryRow entries y = some r) :
    ∃ e, lookupYear entries y = some e ∧ e.normalized.isEmpty = false ∧
      r = { year := y
            yearEndValue := e.original.getLast?
            yearEndPerf := e.normalized.getLast? } := by
  simp only [summaryRow] at h
  split at h
  · split at h
    · cases h
    · cases h
      next e he hne =>
        exact ⟨e, he, by simpa using hne, rfl⟩
  · cases h

/-- Elimination form of a successful `traceFor`. -/
theorem traceFor_some (entries : List AnnualEntry) (sp : Bool) (i : Nat)
    (y : Nat) (t : Trace) (h : traceFor entries sp i y = some t) :
    ∃ e, lookupYear entries y = some e ∧
      t = { name := y
            x := e.syntheticDates
            y := if sp then e.normalized else e.original
            hovertext :=
              if (create_hover_text e.dates e.original e.normalized).length
                  = e.syntheticDates.length
              then some (create_hover_text e.dates e.original e.normalized)
              else none
            customdata :=
              (e.dates.zip (e.original.zip e.normalized)).map
                (fun w => (w.1, w.2.1, w.2.2))
            colorIdx := i % COLOR_PALETTE.length } := by
  simp only [traceFor] at h
  split at h
  · cases h
    next e he => exact ⟨e, he, rfl⟩
  · cases h

end PipelineLemmas

section ConcreteData

/-- Six-point 2021 series: the spec's `[100, 110, 121]` scenario
extended past the `>5`-point inclusion filter. -/
def data6 : List PricePoint :=
  [{ date := { year := 2021, month := 1, day := 4 }, close := some 100 },
   { date := { year := 2021, month := 1, day := 5 }, close := some 110 },
   { date := { year := 2021, month := 1, day := 6 }, close := some 121 },
   { date := { year := 2021, month := 1, day := 7 }, close := some 110 },
   { date := { year := 2021, month := 1, day := 8 }, close := some 100 },
   { date := { year := 2021, month := 1, day := 11 }, close := some 121 }]

/-- The bundle `processYear` produces for `data6`. -/
def entry6val : AnnualEntry :=
  { year := 2021
    original := [some 100, some 110, some 121, some 110, some 100, some 121]
    dates := [{ year := 2021, month := 1, day := 4 }, { year := 2021, month := 1, day := 5 },
              { year := 2021, month := 1, day := 6 }, { year := 2021, month := 1, day := 7 },
              { year := 2021, month := 1, day := 8 }, { year := 2021, month := 1, day := 11 }]
    normalized := [some 0, some 10, some 21, some 10, some 0, some 21]
    syntheticDates := [{ year := 2000, month := 1, day := 4 }, { year := 2000, month := 1, day := 5 },
                       { year := 2000, month := 1, day := 6 }, { year := 2000, month := 1, day := 7 },
                       { year := 2000, month := 1, day := 8 }, { year := 2000, month := 1, day := 11 }] }

theorem processYear_data6_eval : processYear data6 2021 = some entry6val := by
  norm_num [processYear, yearWindow, firstSome, ffill, ffillAux, bfill,
    List.filter_cons, List.findSome?, data6, entry6val]

/-- Six-point 2022 series appended after `data6` for two-year runs. -/
def data2022 : List PricePoint :=
  [{ date := { year := 2022, month := 1, day := 3 }, close := some 50 },
   { date := { year := 2022, month := 1, day := 4 }, close := some 55 },
   { date := { year := 2022, month := 1, day := 5 }, close := some 60 },
   { date := { year := 2022, month := 1, day := 6 }, close := some 66 },
   { date := { year := 2022, month := 1, day := 7 }, close := some 44 },
   { date := { year := 2022, month := 1, day := 10 }, close := some 55 }]

/-- The bundle `processYear` produces for the 2022 window of
`data6 ++ data2022`. -/
def entry2022val : AnnualEntry :=
  { year := 2022
    original := [some 50, some 55, some 60, some 66, some 44, some 55]
    dates := [{ year := 2022, month := 1, day := 3 }, { year := 2022, month := 1, day := 4 },
              { year := 2022, month := 1, day := 5 }, { year := 2022, month := 1, day := 6 },
              { year := 2022, month := 1, day := 7 }, { year := 2022, month := 1, day := 10 }]
    normalized := [some 0, some 10, some 20, some 32, some (-12), some 10]
    syntheticDates := [{ year := 2000, month := 1, day := 3 }, { year := 2000, month := 1, day := 4 },
                       { year := 2000, month := 1, day := 5 }, { year := 2000, month := 1, day := 6 },
                       { year := 2000, month := 1, day := 7 }, { year := 2000, month := 1, day := 10 }] }

/-- Two-year input series, 2021 then 2022, chronological. -/
def dataTwo : List PricePoint := data6 ++ data2022

theorem processYear_dataTwo_2021 : processYear dataTwo 2021 = some entry6val := by
  norm_num [processYear, yearWindow, firstSome, ffill, ffillAux, bfill,
    List.filter_cons, List.findSome?, dataTwo, data6, data2022, entry6val]

theorem processYear_dataTwo_2022 : processYear dataTwo 2022 = some entry2022val := by
  norm_num [processYear, yearWindow, firstSome, ffill, ffillAux, bfill,
    List.filter_cons, List.findSome?, dataTwo, data6, data2022, entry2022val]

/-- The entries list of a run on `dataTwo` with display order
`[2022, 2021]`. -/
def entriesTwoVal : List AnnualEntry := [entry2022val, entry6val]

/-- The summary rows of that run, in display order. -/
def rowsTwoVal : List SummaryRow :=
  [{ year := 2022, yearEndValue := some (some 55), yearEndPerf := some (some 10) },
   { year := 2021, yearEndValue := some (some 121), yearEndPerf := some (some 21) }]

theorem summaryTwo_eval :
    create_summary_table entriesTwoVal [2022, 2021] = some rowsTwoVal := rfl

/-- Six-point 2023 series with leading, interior and trailing gaps. -/
def dataGap : List PricePoint :=
  [{ date := { year := 2023, month := 3, day := 1 }, close := none },
   { date := { year := 2023, month := 3, day := 2 }, close := some 100 },
   { date := { year := 2023, month := 3, day := 3 }, close := none },
   { date := { year := 2023, month := 3, day := 6 }, close := some 120 },
   { date := { year := 2023, month := 3, day := 7 }, close := some 110 },
   { date := { year := 2023, month := 3, day := 8 }, close := none }]

/-- The bundle `processYear` produces for `dataGap`: forward-fill then
backward-fill leaves no missing value, and the leading gap receives the
baseline 100. -/
def entryGapVal : AnnualEntry :=
  { year := 2023
    original := [some 100, some 100, some 100, some 120, some 110, some 110]
    dates := [{ year := 2023, month := 3, day := 1 }, { year := 2023, month := 3, day := 2 },
              { year := 2023, month := 3, day := 3 }, { year := 2023, month := 3, day := 6 },
              { year := 2023, month := 3, day := 7 }, { year := 2023, month := 3, day := 8 }]
    normalized := [some 0, some 0, some 0, some 20, some 10, some 10]
    syntheticDates := [{ year := 2000, month := 3, day := 1 }, { year := 2000, month := 3, day := 2 },
                       { year := 2000, month := 3, day := 3 }, { year := 2000, month := 3, day := 6 },
                       { year := 2000, month := 3, day := 7 }, { year := 2000, month := 3, day := 8 }] }

theorem processYear_dataGap_eval : processYear dataGap 2023 = some entryGapVal := by
  norm_num [processYear, yearWindow, firstSome, ffill, ffillAux, bfill,
    List.filter_cons, List.findSome?, dataGap, entryGapVal]

/-- Six-point 2024 series whose every close is zero, so the baseline
is zero. -/
def dataZero : List PricePoint :=
  [{ date := { year := 2024, month := 1, day := 2 }, close := some 0 },
   { date := { year := 2024, month := 1, day := 3 }, close := some 0 },
   { date := { year := 2024, month := 1, day := 4 }, close := some 0 },
   { date := { year := 2024, month := 1, day := 5 }, close := some 0 },
   { date := { year := 2024, month := 1, day := 8 }, close := some 0 },
   { date := { year := 2024, month := 1, day := 9 }, close := some 0 }]

/-- The bundle `processYear` produces for `dataZero` in this rational
embedding, where division by the zero baseline yields 0, so every
normalized value is `(0 - 1) * 100 = -100` (the floating-point code
yields `NaN` there; in both cases the first normalized value is not 0). -/
def entryZeroVal : AnnualEntry :=
  { year := 2024
    original := [some 0, some 0, some 0, some 0, some 0, some 0]
    dates := [{ year := 2024, month := 1, day := 2 }, { year := 2024, month := 1, day := 3 },
              { year := 2024, month := 1, day := 4 }, { year := 2024, month := 1, day := 5 },
              { year := 2024, month := 1, day := 8 }, { year := 2024, month := 1, day := 9 }]
    normalized := [some (-100), some (-100), some (-100), some (-100), some (-100), some (-100)]
    syntheticDates := [{ year := 2000, month := 1, day := 2 }, { year := 2000, month := 1, day := 3 },
                       { year := 2000, month := 1, day := 4 }, { year := 2000, month := 1, day := 5 },
                       { year := 2000, month := 1, day := 8 }, { year := 2000, month := 1, day := 9 }] }

theorem processYear_dataZero_eval : processYear dataZero 2024 = some entryZeroVal := by
  norm_num [processYear, yearWindow, firstSome, ffill, ffillAux, bfill,
    List.filter_cons, List.findSome?, dataZero, entryZeroVal]

/-- Six-point 2020 series ending on the leap day February 29. -/
def dataLeap : List PricePoint :=
  [{ date := { year := 2020, month := 2, day := 24 }, close := some 10 },
   { date := { year := 2020, month := 2, day := 25 }, close := some 20 },
   { date := { year := 2020, month := 2, day := 26 }, close := some 30 },
   { date := { year := 2020, month := 2, day := 27 }, close := some 40 },
   { date := { year := 2020, month := 2, day := 28 }, close := some 50 },
   { date := { year := 2020, month := 2, day := 29 }, close := some 60 }]

/-- The bundle `processYear` produces for `dataLeap`; the reference
year 2000 is a leap year, so `pd.Timestamp(2000, 2, 29)` is valid. -/
def entryLeapVal : AnnualEntry :=
  { year := 2020
    original := [some 10, some 20, some 30, some 40, some 50, some 60]
    dates := [{ year := 2020, month := 2, day := 24 }, { year := 2020, month := 2, day := 25 },
              { year := 2020, month := 2, day := 26 }, { year := 2020, month := 2, day := 27 },
              { year := 2020, month := 2, day := 28 }, { year := 2020, month := 2, day := 29 }]
    normalized := [some 0, some 100, some 200, some 300, some 400, some 500]
    syntheticDates := [{ year := 2000, month := 2, day := 24 }, { year := 2000, month := 2, day := 25 },
                       { year := 2000, month := 2, day := 26 }, { year := 2000, month := 2, day := 27 },
                       { year := 2000, month := 2, day := 28 }, { year := 2000, month := 2, day := 29 }] }

theorem processYear_dataLeap_eval : processYear dataLeap 2020 = some entryLeapVal := by
  norm_num [processYear, yearWindow, firstSome, ffill, ffillAux, bfill,
    List.filter_cons, List.findSome?, dataLeap, entryLeapVal]

/-- The spec's literal three-point 2021 scenario. -/
def data3 : List PricePoint :=
  [{ date := { year := 2021, month := 1, day := 4 }, close := some 100 },
   { date := { year := 2021, month := 1, day := 5 }, close := some 110 },
   { date := { year := 2021, month := 1, day := 6 }, close := some 121 }]

/-- A three-point 2019 year prepended to `data6`, mirroring the spec's
year-dropping scenario. -/
def data9 : List PricePoint :=
  [{ date := { year := 2019, month := 1, day := 7 }, close := some 80 },
   { date := { year := 2019, month := 1, day := 8 }, close := some 90 },
   { date := { year := 2019, month := 1, day := 9 }, close := some 85 }] ++ data6

theorem processYear_data9_2019 : processYear data9 2019 = none := rfl

theorem processYear_data9_2021 : processYear data9 2021 = some entry6val := by
  norm_num [processYear, yearWindow, firstSome, ffill, ffillAux, bfill,
    List.filter_cons, List.findSome?, data9, data6, entry6val]

theorem process_data9_eval :
    process_annual_data data9 [2021, 2019] = some [entry6val] := by
  simp [process_annual_data, processYear_data9_2021, processYear_data9_2019]

theorem process_data6_eval :
    process_annual_data data6 [2021] = some [entry6val] := by
  simp [process_annual_data, processYear_data6_eval]

/-- A malformed bundle with inconsistent lengths, used to exercise the
hover-label mismatch guard. -/
def entryBad : AnnualEntry :=
  { year := 5
    original := []
    dates := []
    normalized := []
    syntheticDates := [{ year := 2000, month := 1, day := 1 }] }

/-- The trace built from `entryBad`: the label count 0 disagrees with
the plotted length 1, so the hover labels are omitted. -/
def traceBadVal : Trace :=
  { name := 5
    x := [{ year := 2000, month := 1, day := 1 }]
    y := []
    hovertext := none
    customdata := []
    colorIdx := 0 }

theorem chartBad_eval :
    create_performance_chart [entryBad] [5] true = [traceBadVal] := rfl

/-- The trace built from `entry6val` in percent mode: label count and
plotted length agree, so the hover labels are attached. -/
def trace6val : Trace :=
  { name := 2021
    x := entry6val.syntheticDates
    y := entry6val.normalized
    hovertext := some (create_hover_text entry6val.dates entry6val.original entry6val.normalized)
    customdata :=
      (entry6val.dates.zip (entry6val.original.zip entry6val.normalized)).map
        (fun w => (w.1, w.2.1, w.2.2))
    colorIdx := 0 }

theorem chart6_eval :
    create_performance_chart [entry6val] [2021] true = [trace6val] := rfl

end ConcreteData

section MoreHelpers

/-- A successful summary table returns exactly the summary loop's rows
in display order. -/
theorem create_summary_table_some (entries : List AnnualEntry) (years : List Nat)
    (rows : List SummaryRow) (h : create_summary_table entries years = some rows) :
    rows = years.filterMap (summaryRow entries) := by
  simp only [create_summary_table] at h
  split at h
  · cases h
  · exact (Option.some.injEq _ _ ▸ h).symm

/-- Whether a displayed year contributes a summary row: it is stored and
its normalized series is non-empty. -/
def hasNonEmptyYear (entries : List AnnualEntry) (y : Nat) : Bool :=
  match lookupYear entries y with
  | some e => !e.normalized.isEmpty
  | none => false

/-- The years of the summary rows are the displayed years that have a
stored non-empty series, in display order. -/
theorem summary_years (entries : List AnnualEntry) (years : List Nat) :
    (years.filterMap (summaryRow entries)).map SummaryRow.year
      = years.filter (fun y => hasNonEmptyYear entries y) := by
  induction years with
  | nil => rfl
  | cons y ys ih =>
    cases hl : lookupYear entries y with
    | none => simp [summaryRow, hasNonEmptyYear, hl, ih]
    | some e =>
      cases hne : e.normalized.isEmpty with
      | true => simp [summaryRow, hasNonEmptyYear, hl, hne, ih]
      | false => simp [summaryRow, hasNonEmptyYear, hl, hne, ih]

/-- Two dates with equal fields are equal. -/
theorem Date.eq_of_fields {a b : Date} (h1 : a.year = b.year)
    (h2 : a.month = b.month) (h3 : a.day = b.day) : a = b := by
  cases a; cases b; cases h1; cases h2; cases h3; rfl

end MoreHelpers

/-- Claim C1 (corrected). For every year window that survives filtering,
`normalizedValues[i] = (filledValue[i] / baseline - 1) * 100` at every
position, where the baseline is the window's first non-missing close in
chronological order. (The spec's three-point `[100, 110, 121]` scenario
does not survive the `>5`-point filter — see the counterexample — so the
concrete part of the claim is re-run on a six-point window in the
witness.) -/
theorem claim1_normalization (data : List PricePoint) (y : Nat)
    (e : AnnualEntry) (fv : ℚ) (h : processYear data y = some e)
    (hfv : firstSome ((yearWindow data y).map PricePoint.close) = some fv) :
    e.normalized = e.original.map (Option.map (fun v => (v / fv - 1) * 100)) ∧
    ∀ i : Nat, e.normalized[i]?
      = (e.original[i]?).map (Option.map (fun v => (v / fv - 1) * 100)) := by
  obtain ⟨fv2, h5, hfv2, hyear, horig, hdates, hnorm, hsynth⟩ :=
    processYear_some data y e h
  have heq : fv2 = fv := Option.some.inj (hfv2.symm.trans hfv)
  subst heq
  refine ⟨hnorm, ?_⟩
  intro i
  rw [hnorm, List.getElem?_map]

/-- Claim C1, counterexample to the claim as stated: the spec's raw
three-point series `[100, 110, 121]` on 2021-01-04..06 has only 3
observations, so year 2021 is dropped by the `len(year_data) > 5`
filter: the pipeline returns no 2021 entry at all and the summary table
is `None`, not `(121, 21.0)`. -/
theorem claim1_counterexample :
    process_annual_data data3 [2021] = some [] ∧
    create_summary_table [] [2021] = none := ⟨rfl, rfl⟩

/-- Claim C1 witness: the six-point extension `data6` of the spec
scenario; baseline 100, normalized series starting `[0, 10, 21]`, and
a 2021 summary row `(121, 21.0)`. -/
theorem claim1_witness :
    firstSome ((yearWindow data6 2021).map PricePoint.close) = some 100 ∧
    entry6val.normalized
      = entry6val.original.map (Option.map (fun v => (v / 100 - 1) * 100)) ∧
    entry6val.normalized
      = [some 0, some 10, some 21, some 10, some 0, some 21] ∧
    create_summary_table [entry6val] [2021]
      = some [{ year := 2021, yearEndValue := some (some 121),
                yearEndPerf := some (some 21) }] :=
  ⟨rfl,
   (claim1_normalization data6 2021 entry6val 100 processYear_data6_eval rfl).1,
   rfl, rfl⟩

/-- Claim C2 (confirmed). Every year bundle in the pipeline output has
equal-length original, normalized, true-date and synthetic-date views,
co-indexed by position. -/
theorem claim2_equal_lengths (data : List PricePoint) (years : List Nat)
    (entries : List AnnualEntry) (e : AnnualEntry)
    (h : process_annual_data data years = some entries) (he : e ∈ entries) :
    e.original.length = e.normalized.length ∧
    e.normalized.length = e.dates.length ∧
    e.dates.length = e.syntheticDates.length := by
  rw [process_annual_data_some data years entries h] at he
  obtain ⟨y, hy, hpe⟩ := List.mem_filterMap.mp he
  obtain ⟨fv, h5, hfv, hyear, horig, hdates, hnorm, hsynth⟩ :=
    processYear_some data y e hpe
  refine ⟨?_, ?_, ?_⟩
  · rw [hnorm, List.length_map]
  · rw [hnorm, horig, hdates]
    simp [ffill]
  · rw [hdates, hsynth]
    simp

/-- Claim C2 witness, instantiated on `data6`. -/
theorem claim2_witness :
    entry6val.original.length = entry6val.normalized.length ∧
    entry6val.normalized.length = entry6val.dates.length ∧
    entry6val.dates.length = entry6val.syntheticDates.length :=
  claim2_equal_lengths data6 [2021] [entry6val] entry6val process_data6_eval
    (List.mem_singleton_self _)

/-- Claim C3 (confirmed). A requested year appears in the pipeline
output exactly when its window has strictly more than 5 points and at
least one non-missing close; summary rows can only name years present
in the output, and the pipeline is a total function, so a dropped year
raises no exception. -/
theorem claim3_inclusion (data : List PricePoint) (years : List Nat)
    (entries : List AnnualEntry) (y : Nat) (hy : y ∈ years)
    (h : process_annual_data data years = some entries) :
    ((∃ e ∈ entries, e.year = y) ↔
      5 < (yearWindow data y).length ∧
        (firstSome ((yearWindow data y).map PricePoint.close)).isSome = true) ∧
    ∀ rows r, create_summary_table entries years = some rows → r ∈ rows →
      ∃ e ∈ entries, e.year = r.year := by
  have hrows := process_annual_data_some data years entries h
  constructor
  · constructor
    · rintro ⟨e, he, hey⟩
      rw [hrows] at he
      obtain ⟨y2, hy2, hpe⟩ := List.mem_filterMap.mp he
      obtain ⟨fv, h5, hfv, hyear, _, _, _, _⟩ := processYear_some data y2 e hpe
      have : y2 = y := hyear.symm.trans hey
      subst this
      exact ⟨h5, by rw [hfv]; rfl⟩
    · rintro ⟨h5, hs⟩
      obtain ⟨fv, hfv⟩ := Option.isSome_iff_exists.mp hs
      rw [hrows]
      exact ⟨_, List.mem_filterMap.mpr
        ⟨y, hy, processYear_intro data y fv h5 hfv⟩, rfl⟩
  · intro rows r hst hr
    rw [create_summary_table_some entries years rows hst] at hr
    obtain ⟨y2, hy2, hsr⟩ := List.mem_filterMap.mp hr
    obtain ⟨e, hl, hne, rfl⟩ := summaryRow_some entries y2 r hsr
    exact ⟨e, List.mem_of_find?_eq_some hl,
      by simpa using List.find?_some hl⟩

/-- Claim C3 witness: on `data9` (three 2019 points, six 2021 points)
with requested years `[2021, 2019]`, year 2019 is absent from the
output while 2021 is present. -/
theorem claim3_witness :
    (2019 ∈ ([2021, 2019] : List Nat)) ∧
    ¬ (∃ e ∈ [entry6val], e.year = 2019) ∧
    (∃ e ∈ [entry6val], e.year = 2021) := by
  refine ⟨by decide, ?_, ⟨entry6val, List.mem_singleton_self _, rfl⟩⟩
  intro hex
  have hiff := (claim3_inclusion data9 [2021, 2019] [entry6val] 2019
    (by decide) process_data9_eval).1
  have hlen := (hiff.mp hex).1
  exact absurd hlen (by decide)

/-- Claim C4 (confirmed). The fill step is forward-fill followed by
backward-fill over the whole window, and for every stored year (whose
window necessarily had a non-missing close) no missing entry remains in
the stored original values. -/
theorem claim4_fill_total (data : List PricePoint) (y : Nat) (e : AnnualEntry)
    (h : processYear data y = some e) :
    e.original = bfill (ffill ((yearWindow data y).map PricePoint.close)) ∧
    ∀ o ∈ e.original, o.isSome = true := by
  obtain ⟨fv, h5, hfv, hyear, horig, hdates, hnorm, hsynth⟩ :=
    processYear_some data y e h
  refine ⟨horig, ?_⟩
  intro o ho
  rw [horig] at ho
  exact bfill_ffillAux_isSome _ none (Or.inl (by rw [hfv]; rfl)) o ho

/-- Claim C4 witness: `dataGap` has a leading, an interior and a
trailing gap; the stored values are fully filled. -/
theorem claim4_witness :
    entryGapVal.original
      = bfill (ffill ((yearWindow dataGap 2023).map PricePoint.close)) ∧
    entryGapVal.original.all Option.isSome = true := by
  have h := claim4_fill_total dataGap 2023 entryGapVal processYear_dataGap_eval
  exact ⟨h.1, List.all_eq_true.mpr h.2⟩

/-- Claim C5 (confirmed). Each summary row is the positional last
element of the year's original and normalized series; years without
data are omitted rather than zero-filled, and rows follow the
caller-specified year order. -/
theorem claim5_summary_last (entries : List AnnualEntry) (years : List Nat)
    (rows : List SummaryRow) (h : create_summary_table entries years = some rows) :
    rows.map SummaryRow.year = years.filter (fun y => hasNonEmptyYear entries y) ∧
    ∀ r ∈ rows, ∃ e, lookupYear entries r.year = some e ∧
      r.yearEndValue = e.original.getLast? ∧
      r.yearEndPerf = e.normalized.getLast? := by
  have hrows := create_summary_table_some entries years rows h
  constructor
  · rw [hrows]
    exact summary_years entries years
  · intro r hr
    rw [hrows] at hr
    obtain ⟨y, hy, hsr⟩ := List.mem_filterMap.mp hr
    obtain ⟨e, hl, hne, rfl⟩ := summaryRow_some entries y r hsr
    exact ⟨e, hl, rfl, rfl⟩

/-- Claim C5 witness: the two-year run on `dataTwo` with caller order
`[2022, 2021]` (descending, not ascending); the rows keep that order
and the 2022 row carries the last elements of the 2022 series. -/
theorem claim5_witness :
    rowsTwoVal.map SummaryRow.year = [2022, 2021] ∧
    ∃ e, lookupYear entriesTwoVal 2022 = some e ∧
      some (some (55 : ℚ)) = e.original.getLast? ∧
      some (some (10 : ℚ)) = e.normalized.getLast? := by
  have h := claim5_summary_last entriesTwoVal [2022, 2021] rowsTwoVal summaryTwo_eval
  refine ⟨h.1.trans (by decide), ?_⟩
  obtain ⟨e, he, hv, hp⟩ := h.2
    { year := 2022, yearEndValue := some (some 55), yearEndPerf := some (some 10) }
    (List.Mem.head _)
  exact ⟨e, he, hv, hp⟩

/-- Claim C6 (confirmed). Every true date is mapped to a synthetic date
with the same month and day pinned to the fixed reference year 2000,
and for a chronologically sorted input series the synthetic sequence is
strictly increasing in the same order as the true dates. -/
theorem claim6_synthetic_order (data : List PricePoint) (y : Nat)
    (e : AnnualEntry)
    (hsorted : data.Pairwise (fun p q => Date.lt p.date q.date))
    (h : processYear data y = some e) :
    e.syntheticDates
      = e.dates.map (fun d => { year := 2000, month := d.month, day := d.day }) ∧
    e.syntheticDates.Pairwise Date.lt := by
  obtain ⟨fv, h5, hfv, hyear, horig, hdates, hnorm, hsynth⟩ :=
    processYear_some data y e h
  constructor
  · rw [hsynth, hdates, List.map_map]
    rfl
  · rw [hsynth, List.pairwise_map]
    have hpw : (yearWindow data y).Pairwise (fun p q => Date.lt p.date q.date) :=
      List.Pairwise.sublist (List.filter_sublist data) hsorted
    refine hpw.imp_of_mem ?_
    intro a b ha hb hab
    have hay : a.date.year = y := by
      have := (List.mem_filter.mp ha).2
      simpa using this
    have hby : b.date.year = y := by
      have := (List.mem_filter.mp hb).2
      simpa using this
    rcases hab with hlt | ⟨heq, hmd⟩
    · rw [hay, hby] at hlt
      exact absurd hlt (lt_irrefl y)
    · exact Or.inr ⟨rfl, hmd⟩

/-- Claim C6 witness: on the sorted `data6`, the synthetic dates agree
with the month/day of the true dates in year 2000, strictly
increasing. -/
theorem claim6_witness :
    entry6val.syntheticDates
      = entry6val.dates.map (fun d => { year := 2000, month := d.month, day := d.day }) ∧
    entry6val.syntheticDates.Pairwise Date.lt :=
  claim6_synthetic_order data6 2021 entry6val (by decide) processYear_data6_eval

/-- Claim C7 (confirmed). For a window with pairwise distinct true
dates (all in the window's single calendar year by construction), the
synthetic re-indexing is injective: no two points collide on the
synthetic axis, February 29 included, since the reference year 2000 is
a leap year. -/
theorem claim7_synthetic_injective (data : List PricePoint) (y : Nat)
    (e : AnnualEntry)
    (hnodup : data.Pairwise (fun p q => p.date ≠ q.date))
    (h : processYear data y = some e) :
    e.syntheticDates.Pairwise (fun a b => a ≠ b) := by
  obtain ⟨fv, h5, hfv, hyear, horig, hdates, hnorm, hsynth⟩ :=
    processYear_some data y e h
  rw [hsynth, List.pairwise_map]
  have hpw : (yearWindow data y).Pairwise (fun p q => p.date ≠ q.date) :=
    List.Pairwise.sublist (List.filter_sublist data) hnodup
  refine hpw.imp_of_mem ?_
  intro a b ha hb hab heq
  have hay : a.date.year = y := by
    have := (List.mem_filter.mp ha).2
    simpa using this
  have hby : b.date.year = y := by
    have := (List.mem_filter.mp hb).2
    simpa using this
  have hm := congrArg Date.month heq
  have hd := congrArg Date.day heq
  exact hab (Date.eq_of_fields (hay.trans hby.symm) hm hd)

/-- Claim C7 witness: the leap-week window `dataLeap` containing
2020-02-29; its synthetic dates include 2000-02-29 and are pairwise
distinct. -/
theorem claim7_witness :
    ({ year := 2000, month := 2, day := 29 } : Date) ∈ entryLeapVal.syntheticDates ∧
    entryLeapVal.syntheticDates.Pairwise (fun a b => a ≠ b) :=
  ⟨by decide,
   claim7_synthetic_injective dataLeap 2020 entryLeapVal (by decide)
     processYear_dataLeap_eval⟩

/-- Claim C8 (confirmed). For every trace of the chart, hover labels
are attached exactly when the computed label count equals the length of
the plotted x series, and on a mismatch they are omitted entirely
(`None`); the chart builder is total, so the request cannot fail. -/
theorem claim8_hover_guard (entries : List AnnualEntry) (years : List Nat)
    (sp : Bool) (t : Trace)
    (ht : t ∈ create_performance_chart entries years sp) :
    ∃ e, lookupYear entries t.name = some e ∧ t.x = e.syntheticDates ∧
      t.hovertext =
        (if (create_hover_text e.dates e.original e.normalized).length = t.x.length
         then some (create_hover_text e.dates e.original e.normalized)
         else none) := by
  simp only [create_performance_chart] at ht
  obtain ⟨iy, hiy, htr⟩ := List.mem_filterMap.mp ht
  obtain ⟨e, he, rfl⟩ := traceFor_some entries sp iy.1 iy.2 t htr
  exact ⟨e, he, rfl, rfl⟩

/-- Claim C8 witness: the malformed `entryBad` (label count 0, plotted
length 1) yields a trace with no hover labels, while the well-formed
`entry6val` (counts agree) yields a trace with labels attached. -/
theorem claim8_witness :
    traceBadVal.hovertext = none ∧
    trace6val.hovertext
      = some (create_hover_text entry6val.dates entry6val.original
          entry6val.normalized) := by
  constructor
  · obtain ⟨e, he, hx, hcond⟩ := claim8_hover_guard [entryBad] [5] true traceBadVal
      (by rw [chartBad_eval]; exact List.mem_singleton_self _)
    have heb : e = entryBad := Option.some.inj (he.symm.trans rfl)
    subst heb
    exact hcond.trans rfl
  · obtain ⟨e, he, hx, hcond⟩ := claim8_hover_guard [entry6val] [2021] true trace6val
      (by rw [chart6_eval]; exact List.mem_singleton_self _)
    have heb : e = entry6val := Option.some.inj (he.symm.trans rfl)
    subst heb
    exact hcond.trans rfl

/-- The chart's traces are identical in both display modes except for
the y series. -/
theorem chart_shape_indep (entries : List AnnualEntry) (years : List Nat) :
    (create_performance_chart entries years true).map traceShape
      = (create_performance_chart entries years false).map traceShape := by
  simp only [create_performance_chart, List.map_filterMap]
  apply List.filterMap_congr
  intro iy hiy
  simp only [traceFor]
  cases lookupYear entries iy.2 with
  | none => rfl
  | some e => rfl

/-- Elimination form of a successful `process_and_display_data` run. -/
theorem process_and_display_some (data : List PricePoint) (years : List Nat)
    (sp : Bool) (r : List Trace × Option (List SummaryRow))
    (h : process_and_display_data data years sp = some r) :
    ∃ entries, process_annual_data data years = some entries ∧
      entries ≠ [] ∧
      r = (create_performance_chart entries years sp,
           create_summary_table entries years) := by
  simp only [process_and_display_data] at h
  split at h
  next => cases h
  next entries heq =>
    split at h
    next => cases h
    next hne =>
      cases h
      exact ⟨entries, heq, by simpa using hne, rfl⟩

/-- Claim C9 (confirmed). For identical data and year selection, the
display-mode flag never reaches `process_annual_data` (which has no
such parameter); a full run under percent mode and one under value mode
produce the same summary table and traces agreeing on everything except
the y series, which is the precomputed normalized series under percent
mode and the precomputed original series under value mode. -/
theorem claim9_display_mode (data : List PricePoint) (years : List Nat) :
    ((process_and_display_data data years true).map
        (fun r => (r.1.map traceShape, r.2))
      = (process_and_display_data data years false).map
        (fun r => (r.1.map traceShape, r.2))) ∧
    ∀ sp r, process_and_display_data data years sp = some r →
      ∃ entries, process_annual_data data years = some entries ∧
        r.1 = create_performance_chart entries years sp ∧
        r.2 = create_summary_table entries years ∧
        ∀ t ∈ r.1, ∃ e, lookupYear entries t.name = some e ∧
          t.y = (if sp then e.normalized else e.original) := by
  constructor
  · simp only [process_and_display_data]
    cases process_annual_data data years with
    | none => rfl
    | some entries =>
      cases entries with
      | nil => rfl
      | cons e0 es => simp [chart_shape_indep]
  · intro sp r hr
    obtain ⟨entries, hp, hne, rfl⟩ :=
      process_and_display_some data years sp r hr
    refine ⟨entries, hp, rfl, rfl, ?_⟩
    intro t ht
    simp only [create_performance_chart] at ht
    obtain ⟨iy, hiy, htr⟩ := List.mem_filterMap.mp ht
    obtain ⟨e, he, rfl⟩ := traceFor_some entries sp iy.1 iy.2 t htr
    exact ⟨e, he, rfl⟩

/-- Claim C9 witness: on `data6`, the percent-mode and value-mode runs
agree on everything except the plotted y series. -/
theorem claim9_witness :
    (process_and_display_data data6 [2021] true).map
        (fun r => (r.1.map traceShape, r.2))
      = (process_and_display_data data6 [2021] false).map
        (fun r => (r.1.map traceShape, r.2)) :=
  (claim9_display_mode data6 [2021]).1

/-- Claim C10 (corrected). For every stored year, the filled value at
position 0 equals the baseline (backward-fill copies the first valid
value into a leading gap), and the first normalized value is 0 whenever
the baseline is nonzero. The unconditional form of the claim fails for
a zero baseline — see the counterexample. -/
theorem claim10_first_point (data : List PricePoint) (y : Nat)
    (e : AnnualEntry) (fv : ℚ) (h : processYear data y = some e)
    (hfv : firstSome ((yearWindow data y).map PricePoint.close) = some fv) :
    e.original.head? = some (some fv) ∧
    (fv ≠ 0 → e.normalized.head? = some (some 0)) := by
  obtain ⟨fv2, h5, hfv2, hyear, horig, hdates, hnorm, hsynth⟩ :=
    processYear_some data y e h
  have heq : fv2 = fv := Option.some.inj (hfv2.symm.trans hfv)
  subst heq
  have hne : (yearWindow data y).map PricePoint.close ≠ [] := by
    intro h0
    rw [List.map_eq_nil_iff] at h0
    rw [h0] at h5
    simp at h5
  have hhead := bfill_ffill_head ((yearWindow data y).map PricePoint.close) hne
  constructor
  · rw [horig, hhead, hfv2]
  · intro hfv0
    rw [hnorm, List.head?_map, horig, hhead, hfv2]
    simp [div_self hfv0]

/-- Claim C10, counterexample to the unconditional form: a six-point
window whose every close is 0 has baseline 0, and its first normalized
value is `(0/0 - 1) * 100 = -100` in this rational embedding (`NaN` in
the floating-point code) — in either case not `0.0`. -/
theorem claim10_counterexample :
    processYear dataZero 2024 = some entryZeroVal ∧
    entryZeroVal.normalized.head? = some (some (-100)) ∧
    entryZeroVal.normalized.head? ≠ some (some 0) := by
  refine ⟨processYear_dataZero_eval, rfl, ?_⟩
  intro hc
  rw [show entryZeroVal.normalized.head? = some (some (-100)) from rfl] at hc
  simp only [Option.some.injEq] at hc
  norm_num at hc

/-- Claim C10 witness: `dataGap` starts with a missing close, so
position 0 is populated only by backward-fill; it still equals the
baseline 100 and the first normalized value is 0. -/
theorem claim10_witness :
    entryGapVal.original.head? = some (some 100) ∧
    entryGapVal.normalized.head? = some (some 0) := by
  have h := claim10_first_point dataGap 2023 entryGapVal 100
    processYear_dataGap_eval rfl
  exact ⟨h.1, h.2 (by norm_num)⟩
